import Mathlib

/- Verification development for the CogVideoX-Fun Gradio controller
   (`cogvideox/ui/ui.py`, class `CogVideoX_I2VController`).

   The controller's algorithmic content is embedded shallowly:
   * the long-video chunked-generation loop with overlap blending
     (`generate`, lines 259-318),
   * the model/adapter lifecycle (`update_diffusion_transformer`,
     `update_base_model`, `update_lora_model`),
   * the request-validation / dispatch / LoRA-bracketing / output
     materialization control flow of `generate`.

   External collaborators (the diffusion pipeline, LoRA merge/unmerge,
   safetensors loading) are opaque parameters, as the specification treats
   them as collaborators with a fixed contract.  Frames are modelled as
   rational scalars: every tensor operation the loop performs (scaling,
   blending, concatenation along the frame axis) acts pointwise per pixel,
   so a single representative scalar per frame is a faithful projection. -/

namespace CogVideoXFun

/-! ## The long-video chunk-length rounding rule (ui.py line 267)

`_partial_video_length = int((_partial_video_length - 1)
    // self.vae.config.temporal_compression_ratio
    * self.vae.config.temporal_compression_ratio) + 1`

For `n ≥ 1` (guaranteed by the loop guard `init_frames < length_slider`)
Python's floor division agrees with `Nat` division. -/

def roundLen (tcr n : ℕ) : ℕ := (n - 1) / tcr * tcr + 1

/-! ## Overlap blending (ui.py lines 295-302)

```
mix_ratio = np.array([float(_index) / float(overlap_video_length)
                      for _index in range(overlap_video_length)], ...)
new_sample[:, :, -overlap_video_length:] =
    new_sample[:, :, -overlap_video_length:] * (1 - mix_ratio)
    + sample[:, :, :overlap_video_length] * mix_ratio
new_sample = torch.cat([new_sample, sample[:, :, overlap_video_length:]], dim=2)
```

`prev` is the accumulated sequence (`new_sample`), `cur` the freshly
generated chunk (`sample`); the result keeps `prev`'s head untouched,
cross-fades the `V`-frame overlap with linearly increasing weight `i / V`,
and appends the non-overlapped remainder of `cur`. -/

def blendOverlap (V : ℕ) (prev cur : List ℚ) : List ℚ :=
  prev.take (prev.length - V) ++
    (List.range V).map (fun i =>
      prev.getD (prev.length - V + i) 0 * (1 - (i : ℚ) / (V : ℚ)) +
        cur.getD i 0 * ((i : ℚ) / (V : ℚ))) ++
    cur.drop V

/-- Outcome of the `while init_frames < length_slider` loop body
(ui.py lines 262-318).  `done s` is normal loop exit with the current value
of the Python variable `sample` (`none` when the loop never assigned it);
`raised e` is an exception unwinding out of the loop (the pipeline call is
inside the enclosing `try`); `fuelOut` is a model artifact marking
non-termination of the source loop (only possible when
`overlap_video_length ≥ partial_video_length`, a configuration the spec
excludes upstream). -/
inductive LoopOut where
  | done : Option (List ℚ) → LoopOut
  | raised : String → LoopOut
  | fuelOut : LoopOut
deriving Repr, DecidableEq

/-- One-to-one embedding of the long-video while-loop (ui.py 262-318) over
a fuel parameter.  Arguments mirror the Python locals:
`tcr` = `vae.config.temporal_compression_ratio`, `P` =
`partial_video_length`, `V` = `overlap_video_length`, `L` = `length_slider`;
`init` = `init_frames`, `lastF` = `last_frames`, `sv` = the current value of
`sample` (`none` = unassigned), `k` counts pipeline invocations.  The
pipeline is the opaque `pipe : call-index → num_frames → frames-or-raise`;
its image conditioning (`start_image`, re-seeded from the last `V` blended
frames each iteration) is subsumed by the call index.  The returned list
records the `num_frames` argument of every pipeline invocation in order. -/
def longGo (tcr P V L : ℕ) (pipe : ℕ → ℕ → Except String (List ℚ)) :
    ℕ → ℕ → ℕ → Option (List ℚ) → ℕ → LoopOut × List ℕ
  | 0, _, _, _, _ => (.fuelOut, [])
  | fuel + 1, init, lastF, sv, k =>
    if init < L then
      -- chunk length: shrink and round on the final chunk, else the budget P
      let pvl : ℕ := if lastF ≥ L then roundLen tcr (L - init) else P
      if lastF ≥ L ∧ pvl = 0 then
        -- `if _partial_video_length <= 0: break` (dead: roundLen ≥ 1 on ℕ)
        (.done sv, [])
      else
        match pipe k pvl with
        | .error e => (.raised e, [pvl])
        | .ok sample =>
          let ns : List ℚ :=
            if init ≠ 0 then blendOverlap V (sv.getD []) sample else sample
          if lastF ≥ L then
            (.done (some ns), [pvl])
          else
            let next := longGo tcr P V L pipe fuel
              (init + pvl - V) (init + pvl - V + pvl) (some ns) (k + 1)
            (next.1, pvl :: next.2)
    else
      (.done sv, [])

/-- Entry into the loop: `init_frames = 0`,
`last_frames = init_frames + partial_video_length` (ui.py 262-263).
Fuel `L + 1` is shown sufficient whenever `V < P`. -/
def generateLongVideo (tcr P V L : ℕ) (pipe : ℕ → ℕ → Except String (List ℚ)) :
    LoopOut × List ℕ :=
  longGo tcr P V L pipe (L + 1) 0 P none 0

/-! ## Checkpoint configuration and session state -/

/-- The autoencoder configuration fields `generate` reads
(`self.vae.config.latent_channels`,
`self.vae.config.temporal_compression_ratio`). -/
structure VaeCfg where
  latent_channels : ℕ
  temporal_compression_ratio : ℕ
deriving Repr, DecidableEq

/-- The transformer configuration field `generate` reads
(`self.transformer.config.in_channels`). -/
structure TransformerCfg where
  in_channels : ℕ
deriving Repr, DecidableEq

/-- Which pipeline class `update_diffusion_transformer` assembled
(ui.py 121-136): `CogVideoX_Fun_Pipeline_Inpaint` when
`in_channels ≠ latent_channels`, else `CogVideoX_Fun_Pipeline`. -/
inductive PipelineKind where
  | inpaint
  | plain
deriving Repr, DecidableEq

/-- The mutable controller fields the verified operations touch.
`vae`, `transformer` and `pipeline` are only ever assigned together by
`update_diffusion_transformer` (ui.py 109-136), so the session bundles
them into one optional `models` triple; `weights` abstracts the live
pipeline parameters (type parameter `W`), mutated only by the opaque
base-weight overlay and LoRA merge/unmerge. -/
structure Session (W : Type) where
  models : Option (VaeCfg × TransformerCfg × PipelineKind)
  weights : W
  scheduler : String
  base_model_path : String
  lora_model_path : String
deriving Repr, DecidableEq

/-- `update_diffusion_transformer` (ui.py 105-143).  `load` stands for the
opaque `from_pretrained` constructions; the selection `"none"` returns
immediately (`return gr.update()`) touching nothing.  On a real load the
session is replaced wholesale and the pipeline variant is chosen by the
channel comparison; the scheduler is rebuilt as `"Euler"`. -/
def update_diffusion_transformer {W : Type}
    (load : String → VaeCfg × TransformerCfg × W) (st : Session W)
    (dropdown : String) : Session W :=
  if dropdown = "none" then st
  else
    let v := (load dropdown).1
    let t := (load dropdown).2.1
    let w := (load dropdown).2.2
    { st with
      models := some (v, t,
        if t.in_channels ≠ v.latent_channels then .inpaint else .plain)
      weights := w
      scheduler := "Euler" }

/-! ## `update_base_model` (ui.py 145-161), modelled at the granularity of
named transformer parameters for the state-mutation claim.  Note the
source records `self.base_model_path = base_model_dropdown` *before* any
check, including when no checkpoint is loaded. -/

/-- The two controller fields `update_base_model` can touch: the recorded
base-model path and the (optionally loaded) transformer, as a
name-indexed parameter list. -/
structure BaseModelState where
  base_model_path : String
  transformer : Option (List (String × ℚ))
deriving Repr, DecidableEq

/-- How `update_base_model` surfaced: quiet early return on `"none"`,
a `gr.Info` toast plus `gr.update(value=None)` when no checkpoint is
loaded, or a completed weight overlay. -/
inductive UpdateBaseOutcome where
  | earlyNone
  | infoNoModel : String → UpdateBaseOutcome
  | applied
deriving Repr, DecidableEq

/-- `load_state_dict(state_dict, strict=False)` overlay semantics: model
parameters present in the archive take the archive's value, parameters
absent from the archive keep theirs, unknown archive keys are ignored. -/
def loadStateDictNonStrict (model sd : List (String × ℚ)) :
    List (String × ℚ) :=
  model.map (fun p => (p.1, (sd.lookup p.1).getD p.2))

/-- `update_base_model` (ui.py 145-161).  `loadArchive` stands for the
opaque safetensors read of `personalized_model_dir/dropdown`. -/
def update_base_model (personalized_model_dir : String)
    (loadArchive : String → List (String × ℚ)) (st : BaseModelState)
    (dropdown : String) : BaseModelState × UpdateBaseOutcome :=
  -- line 146: `self.base_model_path = base_model_dropdown`, before any check
  let st1 : BaseModelState := { st with base_model_path := dropdown }
  if dropdown = "none" then (st1, .earlyNone)
  else
    match st1.transformer with
    | none => (st1, .infoNoModel "Please select a pretrained model path.")
    | some weights =>
      let sd := loadArchive (personalized_model_dir ++ "/" ++ dropdown)
      ({ st1 with transformer := some (loadStateDictNonStrict weights sd) },
        .applied)

/-- `update_lora_model` (ui.py 163-170): `"none"` clears the staged path,
otherwise the staged path becomes `personalized_model_dir/dropdown`.
No pipeline weights are touched. -/
def update_lora_model {W : Type} (personalized_model_dir : String)
    (st : Session W) (dropdown : String) : Session W :=
  if dropdown = "none" then { st with lora_model_path := "none" }
  else { st with lora_model_path := personalized_model_dir ++ "/" ++ dropdown }

/-! ## Resize according to reference (ui.py 212-226)

The fixed bucket table `ASPECT_RATIO_512` and the selector
`get_closest_ratio` live in `cogvideox/data/bucket_sampler.py`, which is
not part of the provided sources; both are modelled from the spec. -/

/-- Modelled from the spec: `get_closest_ratio` of
`cogvideox/data/bucket_sampler.py` (not among the provided sources)
"select[s] the closest aspect ratio from a fixed table of supported aspect
buckets".  A table entry is `(ratio key, bucket height, bucket width)`;
the entry whose key is nearest (first wins ties) to the reference's
height/width ratio is returned as `(height, width)`. -/
def get_closest_ratio (h w : ℚ) (table : List (ℚ × ℚ × ℚ)) : ℚ × ℚ :=
  match table with
  | [] => (0, 0)
  | e :: es =>
    (es.foldl (fun best cur =>
      if |cur.1 - h / w| < |best.1 - h / w| then cur else best) e).2

/-- ui.py 219: `{key : [x / 512 * base_resolution for x in ASPECT_RATIO_512[key]]}`. -/
def scaleTable (base : ℚ) (table : List (ℚ × ℚ × ℚ)) : List (ℚ × ℚ × ℚ) :=
  table.map (fun e => (e.1, e.2.1 / 512 * base, e.2.2 / 512 * base))

/-- ui.py 226: `int(x / 16) * 16` — snap a nonnegative dimension down to
the nearest multiple of 16 (Python `int()` truncates toward zero; all
bucket dimensions are nonnegative, where truncation is the floor). -/
def snap16 (x : ℚ) : ℤ := ⌊x / 16⌋ * 16

/-- ui.py 219-226 composed: scale the bucket table to the base resolution,
pick the bucket closest to the reference's `height/width` aspect ratio,
snap both dimensions down to multiples of 16.  Returns
`(height_slider, width_slider)`. -/
def resizeByReference (table : List (ℚ × ℚ × ℚ)) (base origW origH : ℚ) :
    ℤ × ℤ :=
  let closest := get_closest_ratio origH origW (scaleTable base table)
  (snap16 closest.1, snap16 closest.2)

/-! ## Python `int()` on the seed textbox (ui.py 253-255) -/

/-- Python `int(s)` on a decimal string: optional surrounding whitespace,
optional sign, then at least one digit; anything else raises `ValueError`
(`none`).  (Digit-group underscores, accepted by Python, are omitted:
no claim involves them.) -/
def pyInt? (s : String) : Option ℤ :=
  match (s.data.dropWhile Char.isWhitespace).reverse.dropWhile
      Char.isWhitespace |>.reverse with
  | [] => none
  | c :: cs =>
    match (if c = '-' then ((-1 : ℤ), cs)
      else if c = '+' then (1, cs) else (1, c :: cs)) with
    | (sign, digits) =>
      if digits.isEmpty then none
      else if digits.all Char.isDigit then
        some (sign *
          ((digits.foldl (fun acc ch => acc * 10 + (ch.toNat - 48)) 0 : ℕ) : ℤ))
      else none

/-! ## The `generate` request (ui.py 172-197)

Conditioning media are carried as their only observable used by the
control flow: the native `(width, height)` size (ui.py 221-224).  The
field `chunk_video_length` is the source's per-chunk frame budget slider
(third slider of the long-video group). -/

structure GenInputs where
  base_model_dropdown : String
  lora_model_dropdown : String
  lora_alpha_slider : ℚ
  prompt_textbox : String
  negative_prompt_textbox : String
  sampler_dropdown : String
  sample_step_slider : ℕ
  resize_method : String
  width_slider : ℤ
  height_slider : ℤ
  base_resolution : ℚ
  generation_method : String
  length_slider : ℕ
  overlap_video_length : ℕ
  chunk_video_length : ℕ
  cfg_scale_slider : ℚ
  start_image : Option (ℚ × ℚ)
  end_image : Option Unit
  validation_video : Option (ℚ × ℚ)
  denoise_strength : ℚ
  seed_textbox : String
deriving Repr, DecidableEq

/-- The opaque collaborators `generate` invokes, with the contracts the
spec fixes for them.  `pipe idx n` is the `self.pipeline(...)` call number
`idx` with `num_frames = n`, returning decoded frames or raising;
`merge_lora`/`unmerge_lora` take the pipeline weights, a LoRA path and the
multiplier; `applyBase` is the `update_base_model` weight overlay as seen
from `generate` (the transformer is part of the live pipeline). -/
structure GenEnv (W : Type) where
  personalized_model_dir : String
  aspect_ratio_table : List (ℚ × ℚ × ℚ)
  applyBase : W → String → W
  merge_lora : W → String → ℚ → W
  unmerge_lora : W → String → ℚ → W
  pipe : ℕ → ℕ → Except String (List ℚ)

/-- What `generate` persisted on success (ui.py 395-421): a single still
`.png`, or an `.mp4` encoded at the given fps. -/
inductive SavedArtifact where
  | image
  | video : ℕ → SavedArtifact
deriving Repr, DecidableEq

/-- How one `generate` call returned to its caller.
`rejected raised msg`: a pre-`try` validation rejection — `raised = true`
is `raise gr.Error(msg)`, `raised = false` the `is_api` early return
`("", msg)`.  `caught api msg`: the `except Exception` branch's structured
return (ui.py 352-361).  `pyException`: an exception no handler in
`generate` catches (it unwinds to the caller). -/
inductive GenResult where
  | success : SavedArtifact → GenResult
  | rejected : Bool → String → GenResult
  | caught : Bool → String → GenResult
  | pyException : String → GenResult
deriving Repr, DecidableEq

/-- The values the validation phase hands to the sampling phase: the
checkpoint configs and the (possibly reference-resized) target size. -/
structure GenCtx where
  vae : VaeCfg
  trans : TransformerCfg
  width : ℤ
  height : ℤ
deriving Repr, DecidableEq

/-- ui.py 198-251: everything `generate` does before LoRA merging — the
no-checkpoint guard, the conditional `update_base_model` /
`update_lora_model` calls, the resize-according-to-reference branch, the
three modality rejections, and the scheduler swap (line 248).  Returns
either an early exit (final state, result, no pipeline calls) or the
session (scheduler swapped) plus the dispatch context.  An early exit
`.inl (st, raised, msg)` is a user-facing rejection: `raised = true` is
`raise gr.Error(msg)`, `raised = false` the API-mode return `("", msg)`;
no pipeline invocation has occurred. -/
def genStage1 {W : Type} (env : GenEnv W) (st0 : Session W)
    (inp : GenInputs) (is_api : Bool) :
    (Session W × Bool × String) ⊕ (Session W × GenCtx) :=
  match st0.models with
  | none =>
    -- line 202-203: raises gr.Error even in API mode
    .inl (st0, true, "Please select a pretrained model path.")
  | some (vae, tcfg, _pk) =>
    -- lines 205-206: self.update_base_model(base_model_dropdown)
    let st1 : Session W :=
      if st0.base_model_path ≠ inp.base_model_dropdown then
        let stb := { st0 with base_model_path := inp.base_model_dropdown }
        if inp.base_model_dropdown = "none" then stb
        else { stb with
          weights := env.applyBase stb.weights inp.base_model_dropdown }
      else st0
    -- lines 208-210: self.update_lora_model(lora_model_dropdown)
    let st2 : Session W :=
      if st1.lora_model_path ≠ inp.lora_model_dropdown then
        update_lora_model env.personalized_model_dir st1 inp.lora_model_dropdown
      else st1
    -- lines 212-226: resize according to reference
    match
      (if inp.resize_method = "Resize according to Reference" then
        match inp.validation_video, inp.start_image with
        | none, none =>
          .inl (st2, !is_api,
            "Please upload an image when using \"Resize according to Reference\".")
        | vv, si =>
          let origSize : ℚ × ℚ :=
            match vv with
            | some wh => wh
            | none =>
              match si with
              | some wh => wh
              | none => (0, 0)   -- unreachable: both none was rejected above
          .inr (resizeByReference env.aspect_ratio_table inp.base_resolution
            origSize.1 origSize.2)
      else .inr (inp.height_slider, inp.width_slider) :
        (Session W × Bool × String) ⊕ (ℤ × ℤ)) with
    | .inl r => .inl r
    | .inr (h, w) =>
      -- lines 228-232
      if tcfg.in_channels = vae.latent_channels ∧ inp.start_image ≠ none then
        .inl (st2, !is_api,
          "Please select an image to video pretrained model while using image to video.")
      -- lines 234-238
      else if tcfg.in_channels = vae.latent_channels ∧
          inp.generation_method = "Long Video Generation" then
        .inl (st2, !is_api,
          "Please select an image to video pretrained model while using long video generation.")
      -- lines 240-244
      else if inp.start_image = none ∧ inp.end_image ≠ none then
        .inl (st2, !is_api,
          "If specifying the ending image of the video, please specify a starting image of the video.")
      else
        -- line 248: scheduler swap (from_config keeps shared hyperparameters)
        .inr ({ st2 with scheduler := inp.sampler_dropdown },
          { vae := vae, trans := tcfg, width := w, height := h })

/-- ui.py 257-351: the body of the `try` block.  Three dispatch paths:
the long-video chunk loop (image/video-capable checkpoint, long mode, a
supplied reference video raises inside the `try`), the single-shot
conditioned call, and the plain text-to-video call.  `num_frames` is
coerced to 1 when `generation_method == "Image Generation"`
(ui.py 334, 349).  Returns the loop/pipeline outcome and the recorded
`num_frames` of every pipeline invocation. -/
def genTry {W : Type} (env : GenEnv W) (ctx : GenCtx) (inp : GenInputs) :
    LoopOut × List ℕ :=
  if ctx.trans.in_channels ≠ ctx.vae.latent_channels then
    if inp.generation_method = "Long Video Generation" then
      if inp.validation_video ≠ none then
        -- line 261: raise gr.Error inside the try — caught by the except
        (.raised "Video to Video is not Support Long Video Generation now.", [])
      else
        generateLongVideo ctx.vae.temporal_compression_ratio
          inp.chunk_video_length inp.overlap_video_length inp.length_slider
          env.pipe
    else
      -- lines 320-340: one conditioned call (image- or video-derived
      -- latents and strength are opaque payload); `num_frames` is
      -- `length_slider if not is_image else 1`
      match env.pipe 0
          (if inp.generation_method = "Image Generation" then 1
            else inp.length_slider) with
      | .error e =>
        (.raised e,
          [if inp.generation_method = "Image Generation" then 1
            else inp.length_slider])
      | .ok sample =>
        (.done (some sample),
          [if inp.generation_method = "Image Generation" then 1
            else inp.length_slider])
  else
    -- lines 342-351: plain text-to-video call
    match env.pipe 0
        (if inp.generation_method = "Image Generation" then 1
          else inp.length_slider) with
    | .error e =>
      (.raised e,
        [if inp.generation_method = "Image Generation" then 1
          else inp.length_slider])
    | .ok sample =>
      (.done (some sample),
        [if inp.generation_method = "Image Generation" then 1
          else inp.length_slider])

/-- ui.py 249-251: `if self.lora_model_path != "none": self.pipeline =
merge_lora(self.pipeline, self.lora_model_path,
multiplier=lora_alpha_slider)`. -/
def mergeStagedLora {W : Type} (env : GenEnv W) (st : Session W)
    (alpha : ℚ) : Session W :=
  if st.lora_model_path ≠ "none" then
    { st with weights := env.merge_lora st.weights st.lora_model_path alpha }
  else st

/-- ui.py 356-357 / 368-369: `if self.lora_model_path != "none":
self.pipeline = unmerge_lora(self.pipeline, self.lora_model_path,
multiplier=lora_alpha_slider)` — run on the except path and on the
success path alike. -/
def unmergeStagedLora {W : Type} (env : GenEnv W) (st : Session W)
    (alpha : ℚ) : Session W :=
  if st.lora_model_path ≠ "none" then
    { st with weights := env.unmerge_lora st.weights st.lora_model_path alpha }
  else st

/-- ui.py 249-421 after validation: LoRA merge (249-251), seed parsing
(253-255, outside any `try`: an unparsable seed unwinds as a raw
`ValueError`), the guarded `try` (257-351), the except branch (352-361),
LoRA unmerge (368-369), and output materialization (395-421): a still
image iff `is_image or length_slider == 1`, else an 8 fps video.  The GPU
cache eviction calls and the log/filename writes have no effect on this
state and are elided. -/
def genAfterValidation {W : Type} (env : GenEnv W) (st1 : Session W)
    (ctx : GenCtx) (inp : GenInputs) (is_api : Bool) :
    Session W × GenResult × List ℕ :=
  match pyInt? inp.seed_textbox with
  | none =>
    (mergeStagedLora env st1 inp.lora_alpha_slider,
      .pyException "ValueError: invalid literal for int() with base 10", [])
  | some _ =>
    match genTry env ctx inp with
    | (.raised e, calls) =>
      (unmergeStagedLora env (mergeStagedLora env st1 inp.lora_alpha_slider)
          inp.lora_alpha_slider,
        .caught is_api ("Error. error information is " ++ e), calls)
    | (.fuelOut, calls) =>
      (mergeStagedLora env st1 inp.lora_alpha_slider,
        .pyException "nonterminating long-video loop", calls)
    | (.done sampleOpt, calls) =>
      match sampleOpt with
      | none =>
        -- Python variable `sample` was never assigned by the loop
        (unmergeStagedLora env (mergeStagedLora env st1 inp.lora_alpha_slider)
            inp.lora_alpha_slider,
          .pyException "NameError: name 'sample' is not defined", calls)
      | some _sample =>
        if inp.generation_method = "Image Generation" ∨
            inp.length_slider = 1 then
          (unmergeStagedLora env
              (mergeStagedLora env st1 inp.lora_alpha_slider)
              inp.lora_alpha_slider,
            .success .image, calls)
        else
          (unmergeStagedLora env
              (mergeStagedLora env st1 inp.lora_alpha_slider)
              inp.lora_alpha_slider,
            .success (.video 8), calls)

/-- `CogVideoX_I2VController.generate` (ui.py 172-421): the validation
phase followed by the sampling/bracketing/materialization phase.  Returns
the final session, the result, and the `num_frames` of each pipeline
invocation in order. -/
def generate {W : Type} (env : GenEnv W) (st0 : Session W) (inp : GenInputs)
    (is_api : Bool) : Session W × GenResult × List ℕ :=
  match genStage1 env st0 inp is_api with
  | .inl (st, raised, msg) => (st, .rejected raised msg, [])
  | .inr (st1, ctx) => genAfterValidation env st1 ctx inp is_api

/-! ## Concrete instances used to exercise the definitions -/

/-- A small concrete aspect-bucket table `(ratio, height, width)` in the
shape of `ASPECT_RATIO_512`. -/
def sampleAspectTable : List (ℚ × ℚ × ℚ) :=
  [(1/4, 256, 1024), (1, 512, 512), (7/4, 672, 384)]

/-- A concrete environment over scalar weights: LoRA merge adds the
multiplier, unmerge subtracts it (so the round-trip contract holds), the
pipeline returns `n` zero-frames. -/
def sampleEnv : GenEnv ℚ where
  personalized_model_dir := "models/Personalized_Model"
  aspect_ratio_table := sampleAspectTable
  applyBase := fun w _ => w
  merge_lora := fun w _ m => w + m
  unmerge_lora := fun w _ m => w - m
  pipe := fun _ n => .ok (List.replicate n 0)

/-- `sampleEnv` with a pipeline that always raises `e`. -/
def sampleEnvErr (e : String) : GenEnv ℚ :=
  { sampleEnv with pipe := fun _ _ => .error e }

/-- A loaded image-to-video-capable checkpoint
(`in_channels = 32 ≠ 16 = latent_channels`). -/
def sampleSessionI2V : Session ℚ where
  models := some (⟨16, 4⟩, ⟨32⟩, .inpaint)
  weights := 7
  scheduler := "Euler"
  base_model_path := "none"
  lora_model_path := "none"

/-- A loaded text-to-video-only checkpoint
(`in_channels = 16 = latent_channels`). -/
def sampleSessionT2V : Session ℚ where
  models := some (⟨16, 4⟩, ⟨16⟩, .plain)
  weights := 7
  scheduler := "Euler"
  base_model_path := "none"
  lora_model_path := "none"

/-- `sampleSessionI2V` with a LoRA already staged. -/
def sampleSessionLora : Session ℚ :=
  { sampleSessionI2V with
    lora_model_path := "models/Personalized_Model/style.safetensors" }

/-- A plain short-video request matching the sliders' defaults. -/
def sampleInputs : GenInputs where
  base_model_dropdown := "none"
  lora_model_dropdown := "none"
  lora_alpha_slider := 55/100
  prompt_textbox := "a red ball bouncing"
  negative_prompt_textbox := ""
  sampler_dropdown := "Euler"
  sample_step_slider := 50
  resize_method := "Generate by"
  width_slider := 672
  height_slider := 384
  base_resolution := 512
  generation_method := "Video Generation"
  length_slider := 49
  overlap_video_length := 4
  chunk_video_length := 25
  cfg_scale_slider := 7
  start_image := none
  end_image := none
  validation_video := none
  denoise_strength := 7/10
  seed_textbox := "43"

/-- `sampleInputs` with a LoRA selected in the dropdown. -/
def sampleInputsLora : GenInputs :=
  { sampleInputs with lora_model_dropdown := "style.safetensors" }

/-! # Theorems -/

/-! ## Overlap blending (claim C2) -/

theorem blendOverlap_length (V : ℕ) (prev cur : List ℚ) (hp : V ≤ prev.length)
    (hc : V ≤ cur.length) :
    (blendOverlap V prev cur).length = prev.length + cur.length - V := by
  unfold blendOverlap
  rw [List.length_append, List.length_append, List.length_take,
    List.length_map, List.length_range, List.length_drop]
  omega

theorem blendOverlap_getD_overlap (V : ℕ) (prev cur : List ℚ)
    (hp : V ≤ prev.length) (i : ℕ) (hi : i < V) :
    (blendOverlap V prev cur).getD (prev.length - V + i) 0 =
      prev.getD (prev.length - V + i) 0 * (1 - (i : ℚ) / (V : ℚ)) +
        cur.getD i 0 * ((i : ℚ) / (V : ℚ)) := by
  have hA : (prev.take (prev.length - V)).length = prev.length - V := by
    rw [List.length_take]
    omega
  have hAB : ((prev.take (prev.length - V)) ++
      (List.range V).map (fun j =>
        prev.getD (prev.length - V + j) 0 * (1 - (j : ℚ) / (V : ℚ)) +
          cur.getD j 0 * ((j : ℚ) / (V : ℚ)))).length = prev.length := by
    rw [List.length_append, hA, List.length_map, List.length_range]
    omega
  unfold blendOverlap
  rw [List.getD_append _ _ _ _ (by rw [hAB]; omega)]
  rw [List.getD_append_right _ _ _ _ (by rw [hA]; omega)]
  rw [hA, Nat.add_sub_cancel_left]
  have hi' : i < ((List.range V).map (fun j =>
      prev.getD (prev.length - V + j) 0 * (1 - (j : ℚ) / (V : ℚ)) +
        cur.getD j 0 * ((j : ℚ) / (V : ℚ)))).length := by
    simpa using hi
  rw [List.getD_eq_getElem _ _ hi']
  simp

/-- Claim C2: in the long-video loop, each post-first chunk is blended
onto the previous chunk's trailing `V` frames with mix weight `i / V` at
overlap position `i` — so position 0 keeps the previous chunk's frame
unchanged — the frames before the overlap are untouched, and the new
chunk's non-overlapped remainder is appended after the blended region. -/
theorem overlap_blend_linear_crossfade (V : ℕ) (prev cur : List ℚ)
    (hV : 0 < V) (hp : V ≤ prev.length) (hc : V ≤ cur.length) :
    (blendOverlap V prev cur).getD (prev.length - V) 0 =
      prev.getD (prev.length - V) 0 ∧
    (∀ i, i < V →
      (blendOverlap V prev cur).getD (prev.length - V + i) 0 =
        prev.getD (prev.length - V + i) 0 * (1 - (i : ℚ) / (V : ℚ)) +
          cur.getD i 0 * ((i : ℚ) / (V : ℚ))) ∧
    (blendOverlap V prev cur).take (prev.length - V) =
      prev.take (prev.length - V) ∧
    (blendOverlap V prev cur).drop prev.length = cur.drop V := by
  refine ⟨?_, fun i hi => blendOverlap_getD_overlap V prev cur hp i hi, ?_, ?_⟩
  · have h0 := blendOverlap_getD_overlap V prev cur hp 0 hV
    simpa using h0
  · have hA : (prev.take (prev.length - V)).length = prev.length - V := by
      rw [List.length_take]
      omega
    unfold blendOverlap
    rw [List.append_assoc, List.take_left' hA]
  · have hAB : ((prev.take (prev.length - V)) ++
        (List.range V).map (fun j =>
          prev.getD (prev.length - V + j) 0 * (1 - (j : ℚ) / (V : ℚ)) +
            cur.getD j 0 * ((j : ℚ) / (V : ℚ)))).length = prev.length := by
      rw [List.length_append, List.length_take, List.length_map,
        List.length_range]
      omega
    unfold blendOverlap
    rw [List.drop_left' hAB]

/-- Witness for C2 at `V = 2`, `prev = [1, 2, 3]`, `cur = [5, 7, 9]`. -/
theorem overlap_blend_linear_crossfade_witness :
    (blendOverlap 2 [1, 2, 3] [5, 7, 9]).getD 1 0 =
      ([1, 2, 3] : List ℚ).getD 1 0 ∧
    (∀ i, i < 2 →
      (blendOverlap 2 [1, 2, 3] [5, 7, 9]).getD (1 + i) 0 =
        ([1, 2, 3] : List ℚ).getD (1 + i) 0 * (1 - (i : ℚ) / 2) +
          ([5, 7, 9] : List ℚ).getD i 0 * ((i : ℚ) / 2)) ∧
    (blendOverlap 2 [1, 2, 3] [5, 7, 9]).take 1 = ([1, 2, 3] : List ℚ).take 1 ∧
    (blendOverlap 2 [1, 2, 3] [5, 7, 9]).drop 3 = ([5, 7, 9] : List ℚ).drop 2 :=
  overlap_blend_linear_crossfade 2 [1, 2, 3] [5, 7, 9]
    (by decide) (by decide) (by decide)

/-! ## Checkpoint load with sentinel `"none"` (claim C10) -/

/-- Claim C10: calling `update_diffusion_transformer` with the sentinel
`"none"` returns immediately without modifying any session state — the
previously loaded autoencoder/transformer/pipeline bundle, weights,
scheduler and recorded paths all stay as they were. -/
theorem update_diffusion_transformer_none_noop {W : Type}
    (load : String → VaeCfg × TransformerCfg × W) (st : Session W) :
    update_diffusion_transformer load st "none" = st := by
  simp [update_diffusion_transformer]

/-! ## `update_base_model` without a loaded checkpoint (claim C8) -/

/-- Counterexample to claim C8: with no checkpoint loaded
(`transformer = None`) and recorded path `"none"`, calling
`update_base_model "base.safetensors"` does *not* leave the session state
unchanged — the recorded base-model path is overwritten before the check
(ui.py line 146). -/
theorem update_base_model_mutates_path_counterexample :
    (update_base_model "models/Personalized_Model" (fun _ => [])
        ⟨"none", none⟩ "base.safetensors").1 ≠
      (⟨"none", none⟩ : BaseModelState) ∧
    (update_base_model "models/Personalized_Model" (fun _ => [])
        ⟨"none", none⟩ "base.safetensors").1.base_model_path =
      "base.safetensors" := by
  constructor
  · decide
  · rfl

/-- Claim C8 amended: when `update_base_model` is called while no
checkpoint is loaded (`transformer = None`) with a selection other than
`"none"`, it surfaces the user-facing message
"Please select a pretrained model path." and applies no weights
(`transformer` stays `None`), but the session's recorded base-model path
*is* overwritten with the requested selection before the check. -/
theorem update_base_model_no_checkpoint_amended
    (dir : String) (loadArchive : String → List (String × ℚ))
    (st : BaseModelState) (dropdown : String)
    (ht : st.transformer = none) (hd : dropdown ≠ "none") :
    update_base_model dir loadArchive st dropdown =
      ({ st with base_model_path := dropdown },
        .infoNoModel "Please select a pretrained model path.") := by
  simp [update_base_model, hd, ht]

/-- Witness for the amended C8 at a concrete state and selection. -/
theorem update_base_model_no_checkpoint_amended_witness :
    update_base_model "models/Personalized_Model" (fun _ => [])
        ⟨"none", none⟩ "base.safetensors" =
      (⟨"base.safetensors", none⟩,
        .infoNoModel "Please select a pretrained model path.") :=
  update_base_model_no_checkpoint_amended "models/Personalized_Model"
    (fun _ => []) ⟨"none", none⟩ "base.safetensors" rfl (by decide)

/-! ## Resize according to reference (claim C6) -/

theorem foldl_closest_spec (r : ℚ) (es : List (ℚ × ℚ × ℚ)) :
    ∀ e : ℚ × ℚ × ℚ,
      (es.foldl (fun best cur =>
          if |cur.1 - r| < |best.1 - r| then cur else best) e) ∈ e :: es ∧
      ∀ x ∈ e :: es,
        |(es.foldl (fun best cur =>
            if |cur.1 - r| < |best.1 - r| then cur else best) e).1 - r| ≤
          |x.1 - r| := by
  induction es with
  | nil =>
    intro e
    refine ⟨List.mem_cons_self e [], ?_⟩
    intro x hx
    rw [List.mem_singleton.mp hx]
    simp
  | cons c cs ih =>
    intro e
    rw [List.foldl_cons]
    by_cases hlt : |c.1 - r| < |e.1 - r|
    · rw [if_pos hlt]
      obtain ⟨hmem, hmin⟩ := ih c
      refine ⟨?_, ?_⟩
      · rcases List.mem_cons.mp hmem with h | h
        · exact List.mem_cons.mpr (Or.inr (List.mem_cons.mpr (Or.inl h)))
        · exact List.mem_cons.mpr (Or.inr (List.mem_cons.mpr (Or.inr h)))
      · intro x hx
        rcases List.mem_cons.mp hx with hxe | hx2
        · subst hxe
          exact le_trans (hmin c (List.mem_cons_self _ _)) (le_of_lt hlt)
        · rcases List.mem_cons.mp hx2 with hxc | hxcs
          · subst hxc
            exact hmin x (List.mem_cons_self _ _)
          · exact hmin x (List.mem_cons_of_mem _ hxcs)
    · rw [if_neg hlt]
      obtain ⟨hmem, hmin⟩ := ih e
      refine ⟨?_, ?_⟩
      · rcases List.mem_cons.mp hmem with h | h
        · exact List.mem_cons.mpr (Or.inl h)
        · exact List.mem_cons.mpr (Or.inr (List.mem_cons.mpr (Or.inr h)))
      · intro x hx
        rcases List.mem_cons.mp hx with hxe | hx2
        · subst hxe
          exact hmin x (List.mem_cons_self _ _)
        · rcases List.mem_cons.mp hx2 with hxc | hxcs
          · subst hxc
            exact le_trans (hmin e (List.mem_cons_self _ _)) (not_lt.mp hlt)
          · exact hmin x (List.mem_cons_of_mem _ hxcs)

/-- Claim C6: with resize mode "Resize according to Reference" and a
reference supplied, the computed `(height, width)` is the bucket of the
aspect table, scaled to the chosen base resolution, whose ratio key is
closest to the reference's native aspect ratio `origH / origW`, each
dimension snapped down to a multiple of 16 — in particular both final
dimensions are divisible by 16. -/
theorem resize_by_reference_closest_bucket_mult16
    (table : List (ℚ × ℚ × ℚ)) (base origW origH : ℚ) (hne : table ≠ []) :
    (16 : ℤ) ∣ (resizeByReference table base origW origH).1 ∧
    (16 : ℤ) ∣ (resizeByReference table base origW origH).2 ∧
    ∃ e ∈ scaleTable base table,
      resizeByReference table base origW origH =
        (snap16 e.2.1, snap16 e.2.2) ∧
      ∀ x ∈ scaleTable base table,
        |e.1 - origH / origW| ≤ |x.1 - origH / origW| := by
  refine ⟨dvd_mul_left 16 _, dvd_mul_left 16 _, ?_⟩
  match hscale : scaleTable base table with
  | [] =>
    exact absurd (List.map_eq_nil_iff.mp hscale) hne
  | e0 :: es =>
    obtain ⟨hmem, hmin⟩ := foldl_closest_spec (origH / origW) es e0
    refine ⟨_, hscale ▸ hmem, ?_, fun x hx => hmin x (hscale ▸ hx)⟩
    unfold resizeByReference get_closest_ratio
    rw [hscale]

/-- Witness for C6 on the sample table with a 1920×1080 reference at base
resolution 512 (the spec's own worked example shape). -/
theorem resize_by_reference_closest_bucket_mult16_witness :
    (16 : ℤ) ∣ (resizeByReference sampleAspectTable 512 1920 1080).1 ∧
    (16 : ℤ) ∣ (resizeByReference sampleAspectTable 512 1920 1080).2 ∧
    ∃ e ∈ scaleTable 512 sampleAspectTable,
      resizeByReference sampleAspectTable 512 1920 1080 =
        (snap16 e.2.1, snap16 e.2.2) ∧
      ∀ x ∈ scaleTable 512 sampleAspectTable,
        |e.1 - 1080 / 1920| ≤ |x.1 - 1080 / 1920| :=
  resize_by_reference_closest_bucket_mult16 sampleAspectTable 512 1920 1080
    (by decide)

/-! ## Modality rejection for text-to-video-only checkpoints (claim C4) -/

theorem genStage1_t2v_start_image {W : Type} (env : GenEnv W)
    (st0 : Session W) (inp : GenInputs) (is_api : Bool)
    (vae : VaeCfg) (tcfg : TransformerCfg) (pk : PipelineKind)
    (hm : st0.models = some (vae, tcfg, pk))
    (hch : tcfg.in_channels = vae.latent_channels)
    (hsi : inp.start_image ≠ none) :
    ∃ st', genStage1 env st0 inp is_api = .inl (st', !is_api,
      "Please select an image to video pretrained model while using image to video.") := by
  obtain ⟨p, hp⟩ := Option.ne_none_iff_exists'.mp hsi
  unfold genStage1
  rw [hm]
  by_cases hrm : inp.resize_method = "Resize according to Reference" <;>
    cases hvv : inp.validation_video <;>
      simp [hrm, hp, hvv, hch, hsi]

/-- Claim C4: with a loaded text-to-video-only checkpoint
(`in_channels = latent_channels`), any request supplying a start image is
rejected with the user-facing error before any pipeline invocation
(the recorded pipeline-call list is empty). -/
theorem t2v_checkpoint_rejects_start_image {W : Type} (env : GenEnv W)
    (st0 : Session W) (inp : GenInputs) (is_api : Bool)
    (vae : VaeCfg) (tcfg : TransformerCfg) (pk : PipelineKind)
    (hm : st0.models = some (vae, tcfg, pk))
    (hch : tcfg.in_channels = vae.latent_channels)
    (hsi : inp.start_image ≠ none) :
    (generate env st0 inp is_api).2.1 = .rejected (!is_api)
      "Please select an image to video pretrained model while using image to video." ∧
    (generate env st0 inp is_api).2.2 = [] := by
  obtain ⟨st', h⟩ :=
    genStage1_t2v_start_image env st0 inp is_api vae tcfg pk hm hch hsi
  unfold generate
  rw [h]
  exact ⟨rfl, rfl⟩

/-- Witness for C4: a text-to-video-only checkpoint and a request carrying
a 1280×720 start image. -/
theorem t2v_checkpoint_rejects_start_image_witness :
    (generate sampleEnv sampleSessionT2V
        { sampleInputs with start_image := some (1280, 720) } false).2.1 =
      .rejected true
        "Please select an image to video pretrained model while using image to video." ∧
    (generate sampleEnv sampleSessionT2V
        { sampleInputs with start_image := some (1280, 720) } false).2.2 = [] :=
  t2v_checkpoint_rejects_start_image sampleEnv sampleSessionT2V
    { sampleInputs with start_image := some (1280, 720) } false
    ⟨16, 4⟩ ⟨16⟩ .plain rfl rfl (by decide)

/-! ## Unparsable seed (claim C9) -/

/-- Counterexample to claim C9: a request whose seed is the unparsable
string `"abc"` does not produce a caught error surfaced as a user-facing
message — `generate` raises an uncaught `ValueError` (ui.py 253 runs
outside any `try`), which propagates to the caller. -/
theorem unparsable_seed_uncaught_counterexample :
    (generate sampleEnv sampleSessionI2V
        { sampleInputs with seed_textbox := "abc" } false).2.1 =
      .pyException "ValueError: invalid literal for int() with base 10" := by
  decide

/-- Claim C9 amended: a `generate` request whose seed field is an
unparsable numeric string raises an uncaught `ValueError` that propagates
to the caller (no boundary in this code catches it); it happens before
any pipeline invocation, so no artifacts are produced. -/
theorem unparsable_seed_raises_uncaught_amended {W : Type} (env : GenEnv W)
    (st0 : Session W) (inp : GenInputs) (is_api : Bool)
    (st1 : Session W) (ctx : GenCtx)
    (h1 : genStage1 env st0 inp is_api = .inr (st1, ctx))
    (hseed : pyInt? inp.seed_textbox = none) :
    (generate env st0 inp is_api).2.1 =
      .pyException "ValueError: invalid literal for int() with base 10" ∧
    (generate env st0 inp is_api).2.2 = [] := by
  have hg : generate env st0 inp is_api =
      genAfterValidation env st1 ctx inp is_api := by
    unfold generate
    rw [h1]
  rw [hg]
  unfold genAfterValidation
  rw [hseed]
  exact ⟨rfl, rfl⟩

/-- Witness for the amended C9 at the concrete `"abc"` seed. -/
theorem unparsable_seed_raises_uncaught_amended_witness :
    (generate sampleEnv sampleSessionI2V
        { sampleInputs with seed_textbox := "abc" } false).2.1 =
      .pyException "ValueError: invalid literal for int() with base 10" ∧
    (generate sampleEnv sampleSessionI2V
        { sampleInputs with seed_textbox := "abc" } false).2.2 = [] :=
  unparsable_seed_raises_uncaught_amended sampleEnv sampleSessionI2V
    { sampleInputs with seed_textbox := "abc" } false
    { sampleSessionI2V with scheduler := "Euler" }
    ⟨⟨16, 4⟩, ⟨32⟩, 672, 384⟩ (by rfl) (by decide)

/-! ## Exceptions during pipeline invocation (claim C5) -/

theorem longGo_first_pipe_error (tcr P V L : ℕ)
    (pipe : ℕ → ℕ → Except String (List ℚ)) (e : String)
    (fuel init lastF : ℕ) (sv : Option (List ℚ)) (k : ℕ)
    (hinit : init < L) (hpipe : ∀ k n, pipe k n = .error e) :
    ∃ calls, longGo tcr P V L pipe (fuel + 1) init lastF sv k =
      (.raised e, calls) := by
  simp only [longGo]
  rw [if_pos hinit]
  by_cases hlf : lastF ≥ L
  · rw [if_neg (by simp [hlf, roundLen])]
    rw [hpipe k _]
    exact ⟨_, rfl⟩
  · rw [if_neg (by simp [hlf])]
    rw [hpipe k _]
    exact ⟨_, rfl⟩

theorem genTry_pipe_error {W : Type} (env : GenEnv W) (ctx : GenCtx)
    (inp : GenInputs) (e : String)
    (hpipe : ∀ k n, env.pipe k n = .error e)
    (hL : 0 < inp.length_slider)
    (hnv : ¬(inp.generation_method = "Long Video Generation" ∧
      inp.validation_video ≠ none)) :
    ∃ calls, genTry env ctx inp = (.raised e, calls) := by
  unfold genTry
  by_cases hcc : ctx.trans.in_channels ≠ ctx.vae.latent_channels
  · rw [if_pos hcc]
    by_cases hlv : inp.generation_method = "Long Video Generation"
    · rw [if_pos hlv]
      have hvv : inp.validation_video = none := by
        by_contra hv
        exact hnv ⟨hlv, hv⟩
      rw [if_neg (by simp [hvv])]
      unfold generateLongVideo
      exact longGo_first_pipe_error _ _ _ _ env.pipe e inp.length_slider 0 _
        none 0 hL hpipe
    · rw [if_neg hlv]
      rw [hpipe 0 _]
      exact ⟨_, rfl⟩
  · rw [if_neg hcc]
    rw [hpipe 0 _]
    exact ⟨_, rfl⟩

/-- Claim C5: for a request that reaches the pipeline-invocation phase,
an exception raised by the pipeline is caught and `generate` returns the
structured failure embedding the exception's message — it never
propagates a raw exception from that phase. -/
theorem pipeline_exception_caught_structured {W : Type} (env : GenEnv W)
    (st0 : Session W) (inp : GenInputs) (is_api : Bool)
    (st1 : Session W) (ctx : GenCtx) (n : ℤ) (e : String)
    (h1 : genStage1 env st0 inp is_api = .inr (st1, ctx))
    (hseed : pyInt? inp.seed_textbox = some n)
    (hpipe : ∀ k n, env.pipe k n = .error e)
    (hL : 0 < inp.length_slider)
    (hnv : ¬(inp.generation_method = "Long Video Generation" ∧
      inp.validation_video ≠ none)) :
    (generate env st0 inp is_api).2.1 =
      .caught is_api ("Error. error information is " ++ e) := by
  obtain ⟨calls, htry⟩ := genTry_pipe_error env ctx inp e hpipe hL hnv
  have hg : generate env st0 inp is_api =
      genAfterValidation env st1 ctx inp is_api := by
    unfold generate
    rw [h1]
  rw [hg]
  unfold genAfterValidation
  rw [hseed, htry]

/-- Witness for C5: the always-raising pipeline on a plain short-video
request. -/
theorem pipeline_exception_caught_structured_witness :
    (generate (sampleEnvErr "CUDA out of memory") sampleSessionI2V
        sampleInputs false).2.1 =
      .caught false ("Error. error information is " ++ "CUDA out of memory") :=
  pipeline_exception_caught_structured (sampleEnvErr "CUDA out of memory")
    sampleSessionI2V sampleInputs false
    { sampleSessionI2V with scheduler := "Euler" }
    ⟨⟨16, 4⟩, ⟨32⟩, 672, 384⟩ 43 "CUDA out of memory"
    (by rfl) (by decide) (fun _ _ => rfl) (by decide) (by decide)

/-! ## LoRA merge/unmerge bracketing (claim C3) -/

theorem unmerge_merge_weights {W : Type} (env : GenEnv W) (st1 : Session W)
    (alpha : ℚ)
    (hrt : ∀ w p m, env.unmerge_lora (env.merge_lora w p m) p m = w)
    (hstaged : st1.lora_model_path ≠ "none") :
    (unmergeStagedLora env (mergeStagedLora env st1 alpha) alpha).weights =
      st1.weights := by
  unfold mergeStagedLora unmergeStagedLora
  simp [hstaged, hrt]

theorem genAfterValidation_restores_weights {W : Type} (env : GenEnv W)
    (st1 : Session W) (ctx : GenCtx) (inp : GenInputs) (is_api : Bool)
    (hrt : ∀ w p m, env.unmerge_lora (env.merge_lora w p m) p m = w)
    (hstaged : st1.lora_model_path ≠ "none")
    (hres : (∃ a, (genAfterValidation env st1 ctx inp is_api).2.1 =
        .success a) ∨
      (∃ b m, (genAfterValidation env st1 ctx inp is_api).2.1 =
        .caught b m)) :
    (genAfterValidation env st1 ctx inp is_api).1.weights = st1.weights := by
  have hw := unmerge_merge_weights env st1 inp.lora_alpha_slider hrt hstaged
  unfold genAfterValidation at hres ⊢
  cases hseed : pyInt? inp.seed_textbox with
  | none =>
    rw [hseed] at hres
    simp at hres
  | some v =>
    rw [hseed] at hres
    rcases htry : genTry env ctx inp with ⟨out, calls⟩
    cases out with
    | raised e => exact hw
    | fuelOut =>
      rw [htry] at hres
      simp at hres
    | done sampleOpt =>
      cases sampleOpt with
      | none =>
        rw [htry] at hres
        simp at hres
      | some _s =>
        dsimp only
        split <;> exact hw

/-- Claim C3: when a LoRA is staged at merge time
(`lora_model_path ≠ "none"`), on every exit of `generate` that is a
success or a caught pipeline exception, `unmerge_lora` has been run with
the same path and multiplier as the preceding `merge_lora`, so the
pipeline weights equal their pre-merge state (given the external
merge/unmerge round-trip contract). -/
theorem lora_bracketing_restores_weights {W : Type} (env : GenEnv W)
    (st0 : Session W) (inp : GenInputs) (is_api : Bool)
    (hrt : ∀ w p m, env.unmerge_lora (env.merge_lora w p m) p m = w)
    (st1 : Session W) (ctx : GenCtx)
    (h1 : genStage1 env st0 inp is_api = .inr (st1, ctx))
    (hstaged : st1.lora_model_path ≠ "none")
    (hres : (∃ a, (generate env st0 inp is_api).2.1 = .success a) ∨
      (∃ b m, (generate env st0 inp is_api).2.1 = .caught b m)) :
    (generate env st0 inp is_api).1.weights = st1.weights := by
  have hg : generate env st0 inp is_api =
      genAfterValidation env st1 ctx inp is_api := by
    unfold generate
    rw [h1]
  rw [hg] at hres ⊢
  exact genAfterValidation_restores_weights env st1 ctx inp is_api hrt
    hstaged hres

/-- Witness for C3: a staged LoRA, additive merge / subtractive unmerge,
a succeeding short-video request; the final weights equal the pre-merge
weights. -/
theorem lora_bracketing_restores_weights_witness :
    (generate sampleEnv sampleSessionI2V sampleInputsLora false).1.weights =
      sampleSessionLora.weights :=
  lora_bracketing_restores_weights sampleEnv sampleSessionI2V
    sampleInputsLora false (fun w p m => by simp [sampleEnv])
    sampleSessionLora ⟨⟨16, 4⟩, ⟨32⟩, 672, 384⟩ (by decide) (by decide)
    (Or.inl ⟨.video 8, by decide⟩)

/-! ## Output materialization (claim C7) -/

theorem genTry_image_calls {W : Type} (env : GenEnv W) (ctx : GenCtx)
    (inp : GenInputs)
    (him : inp.generation_method = "Image Generation") :
    (genTry env ctx inp).2 = [1] := by
  unfold genTry
  rw [him]
  rw [if_neg (show ¬("Image Generation" = "Long Video Generation")
    from by decide)]
  by_cases hcc : ctx.trans.in_channels ≠ ctx.vae.latent_channels
  · rw [if_pos hcc]
    cases hp : env.pipe 0 (if "Image Generation" = "Image Generation"
        then 1 else inp.length_slider) <;> simp
  · rw [if_neg hcc]
    cases hp : env.pipe 0 (if "Image Generation" = "Image Generation"
        then 1 else inp.length_slider) <;> simp

/-- Claim C7: a successful `generate` writes a single still image iff the
generation mode is "Image Generation" or the requested frame count is 1;
otherwise it writes a video encoded at the fixed 8 fps; and in
"Image Generation" mode the single pipeline invocation is coerced to
`num_frames = 1`. -/
theorem image_artifact_iff_image_mode_or_single_frame {W : Type}
    (env : GenEnv W) (st0 : Session W) (inp : GenInputs) (is_api : Bool)
    (stF : Session W) (a : SavedArtifact) (calls : List ℕ)
    (h : generate env st0 inp is_api = (stF, .success a, calls)) :
    (a = .image ↔ (inp.generation_method = "Image Generation" ∨
      inp.length_slider = 1)) ∧
    (¬(inp.generation_method = "Image Generation" ∨
      inp.length_slider = 1) → a = .video 8) ∧
    (inp.generation_method = "Image Generation" → calls = [1]) := by
  unfold generate at h
  rcases hs : genStage1 env st0 inp is_api with ⟨s, b, m⟩ | ⟨st1, ctx⟩
  · rw [hs] at h
    simp at h
  · rw [hs] at h
    have h' : genAfterValidation env st1 ctx inp is_api =
        (stF, .success a, calls) := h
    unfold genAfterValidation at h'
    cases hseed : pyInt? inp.seed_textbox with
    | none =>
      rw [hseed] at h'
      simp at h'
    | some v =>
      rw [hseed] at h'
      rcases htry : genTry env ctx inp with ⟨out, calls'⟩
      rw [htry] at h'
      cases out with
      | raised e => simp at h'
      | fuelOut => simp at h'
      | done sampleOpt =>
        cases sampleOpt with
        | none => simp at h'
        | some _s =>
          dsimp only at h'
          by_cases hcond : inp.generation_method = "Image Generation" ∨
              inp.length_slider = 1
          · rw [if_pos hcond] at h'
            simp only [Prod.mk.injEq] at h'
            obtain ⟨-, ha, hcalls⟩ := h'
            injection ha with ha'
            subst ha'
            refine ⟨?_, ?_, ?_⟩
            · simp [hcond]
            · intro hn
              exact absurd hcond hn
            · intro him
              rw [← hcalls]
              rw [show calls' = (genTry env ctx inp).2 from by rw [htry]]
              exact genTry_image_calls env ctx inp him
          · rw [if_neg hcond] at h'
            simp only [Prod.mk.injEq] at h'
            obtain ⟨-, ha, hcalls⟩ := h'
            injection ha with ha'
            subst ha'
            refine ⟨?_, ?_, ?_⟩
            · simp [hcond]
            · intro _
              rfl
            · intro him
              exact absurd (Or.inl him) hcond

/-- Witness for C7: the sample short-video request succeeds and the
artifact is an 8 fps video, not a still image; the iff and the coercion
rule hold at this instance. -/
theorem image_artifact_iff_image_mode_or_single_frame_witness :
    ((SavedArtifact.video 8) = .image ↔
      (sampleInputs.generation_method = "Image Generation" ∨
        sampleInputs.length_slider = 1)) ∧
    (¬(sampleInputs.generation_method = "Image Generation" ∨
      sampleInputs.length_slider = 1) → (SavedArtifact.video 8) = .video 8) ∧
    (sampleInputs.generation_method = "Image Generation" →
      (generate sampleEnv sampleSessionI2V sampleInputs false).2.2 = [1]) :=
  image_artifact_iff_image_mode_or_single_frame sampleEnv sampleSessionI2V
    sampleInputs false
    (generate sampleEnv sampleSessionI2V sampleInputs false).1 (.video 8)
    (generate sampleEnv sampleSessionI2V sampleInputs false).2.2 (by decide)

/-! ## Long-video round-trip frame count (claim C1)

The loop's cursor after `c` full (non-final) chunks is `c * (P - V)`; the
final chunk starts at the first such cursor with `cursor + P ≥ L`.  `L` is
*reachable* when the rounding rule at that cursor is the identity, i.e.
`roundLen tcr (L - cursor) = L - cursor`. -/

theorem longGo_exact (tcr P V L : ℕ)
    (pipe : ℕ → ℕ → Except String (List ℚ)) (hVP : V < P)
    (hpipe : ∀ k n, ∃ fs, pipe k n = Except.ok fs ∧ fs.length = n)
    (k : ℕ) (hmin : ∀ j, j < k → j * (P - V) + P < L)
    (hkP : L ≤ k * (P - V) + P)
    (hre : roundLen tcr (L - k * (P - V)) = L - k * (P - V)) :
    ∀ fuel c s j, c ≤ k → 0 < c → k - c < fuel →
      s.length = c * (P - V) + V →
      ∃ t calls, longGo tcr P V L pipe fuel (c * (P - V))
        (c * (P - V) + P) (some s) j = (LoopOut.done (some t), calls) ∧
        t.length = L := by
  intro fuel
  induction fuel with
  | zero =>
    intro c s j hck hc hfc hs
    omega
  | succ fuel ih =>
    intro c s j hck hc hfc hs
    obtain ⟨c', rfl⟩ : ∃ c', c = c' + 1 := ⟨c - 1, by omega⟩
    have hmul : (c' + 1) * (P - V) = c' * (P - V) + (P - V) := by ring
    have hprev : c' * (P - V) + P < L := hmin c' (by omega)
    have hinitV : (c' + 1) * (P - V) + V < L := by rw [hmul]; omega
    have hinit : (c' + 1) * (P - V) < L := by omega
    have hne0 : (c' + 1) * (P - V) ≠ 0 := by rw [hmul]; omega
    simp only [longGo, if_pos hinit]
    rcases eq_or_lt_of_le hck with hek | hlt
    · -- final chunk: c' + 1 = k, last_frames ≥ L, rounding is the identity
      subst hek
      have hge : (c' + 1) * (P - V) + P ≥ L := hkP
      simp only [if_pos hge, hre]
      rw [if_neg (show ¬((c' + 1) * (P - V) + P ≥ L ∧
          L - (c' + 1) * (P - V) = 0) from fun hg => by omega)]
      obtain ⟨fs, hfs, hlenfs⟩ := hpipe j (L - (c' + 1) * (P - V))
      rw [hfs]
      dsimp only [Option.getD]
      rw [if_pos hne0]
      refine ⟨blendOverlap V s fs, [L - (c' + 1) * (P - V)], rfl, ?_⟩
      rw [blendOverlap_length V s fs (by omega) (by omega)]
      omega
    · -- non-final chunk: generate P frames, blend, advance the cursor
      have hcur : (c' + 1) * (P - V) + P < L := hmin (c' + 1) hlt
      have hnge : ¬((c' + 1) * (P - V) + P ≥ L) := by omega
      simp only [if_neg hnge]
      rw [if_neg (show ¬((c' + 1) * (P - V) + P ≥ L ∧ P = 0) from
        fun hg => hnge hg.1)]
      obtain ⟨fs, hfs, hlenfs⟩ := hpipe j P
      rw [hfs]
      dsimp only [Option.getD]
      rw [if_pos hne0]
      have hstep : (c' + 1 + 1) * (P - V) = (c' + 1) * (P - V) + (P - V) := by
        ring
      have harg : (c' + 1) * (P - V) + P - V = (c' + 1 + 1) * (P - V) := by
        omega
      rw [harg]
      have hns : (blendOverlap V s fs).length =
          (c' + 1 + 1) * (P - V) + V := by
        rw [blendOverlap_length V s fs (by omega) (by omega)]
        omega
      obtain ⟨t, calls, hrec, hlen⟩ := ih (c' + 1 + 1) (blendOverlap V s fs)
        (j + 1) (by omega) (by omega) (by omega) hns
      rw [hrec]
      exact ⟨t, P :: calls, rfl, hlen⟩

/-- Claim C1: for a long-video request with overlap `V` below the chunk
budget `P`, when the requested frame count `L` is reachable under the
compression-ratio rounding rule (the final shrunken chunk rounds to
itself), the loop terminates normally and the emitted frame sequence has
exactly `L` frames. -/
theorem long_video_emits_requested_length (tcr P V L : ℕ)
    (pipe : ℕ → ℕ → Except String (List ℚ))
    (htcr : 0 < tcr) (hL : 0 < L) (hVP : V < P)
    (hpipe : ∀ k n, ∃ fs, pipe k n = Except.ok fs ∧ fs.length = n)
    (hreach : ∃ k, (∀ j, j < k → j * (P - V) + P < L) ∧
      L ≤ k * (P - V) + P ∧
      roundLen tcr (L - k * (P - V)) = L - k * (P - V)) :
    ∃ frames calls, generateLongVideo tcr P V L pipe =
      (LoopOut.done (some frames), calls) ∧ frames.length = L := by
  obtain ⟨k, hmin, hkP, hre⟩ := hreach
  unfold generateLongVideo
  rcases Nat.eq_zero_or_pos k with rfl | hk
  · -- the whole request fits in one (shrunken) chunk
    have hre0 : roundLen tcr L = L := by simpa using hre
    have hgeP : P ≥ L := by
      have := hkP
      simpa using this
    simp only [longGo, if_pos hL, if_pos hgeP, Nat.sub_zero, hre0]
    rw [if_neg (show ¬(P ≥ L ∧ L = 0) from fun hg => by omega)]
    obtain ⟨fs, hfs, hlenfs⟩ := hpipe 0 L
    rw [hfs]
    dsimp only [Option.getD]
    rw [if_neg (show ¬((0 : ℕ) ≠ 0) from by omega)]
    exact ⟨fs, [L], rfl, hlenfs⟩
  · -- first full chunk, then the invariant of `longGo_exact`
    have h0 : 0 * (P - V) + P < L := hmin 0 hk
    have hPL : P < L := by simpa using h0
    have hnge : ¬(P ≥ L) := by omega
    simp only [longGo, if_pos hL, if_neg hnge]
    rw [if_neg (show ¬(P ≥ L ∧ P = 0) from fun hg => hnge hg.1)]
    obtain ⟨fs, hfs, hlenfs⟩ := hpipe 0 P
    rw [hfs]
    dsimp only [Option.getD]
    rw [if_neg (show ¬((0 : ℕ) ≠ 0) from by omega)]
    simp only [zero_add]
    rw [show P - V = 1 * (P - V) from by omega]
    have hfuel : k - 1 < L := by
      have h1 : (k - 1) * (P - V) + P < L := hmin (k - 1) (by omega)
      have h2 : k - 1 ≤ (k - 1) * (P - V) :=
        Nat.le_mul_of_pos_right _ (by omega)
      omega
    obtain ⟨t, calls, hrec, hlen⟩ := longGo_exact tcr P V L pipe hVP hpipe k
      hmin hkP hre L 1 fs 1 (by omega) (by omega) (by omega) (by omega)
    rw [hrec]
    exact ⟨t, P :: calls, rfl, hlen⟩

/-- Witness for C1: `tcr = 2`, chunk budget `P = 5`, overlap `V = 2`,
requested `L = 9` (chunks of 5, 5 and a final 3, cursor 0, 3, 6;
`roundLen 2 3 = 3` so `9` is reachable); the constant pipeline returns
`n` zero-frames. -/
theorem long_video_emits_requested_length_witness :
    ∃ frames calls,
      generateLongVideo 2 5 2 9 (fun _ n => .ok (List.replicate n 0)) =
        (LoopOut.done (some frames), calls) ∧ frames.length = 9 :=
  long_video_emits_requested_length 2 5 2 9
    (fun _ n => .ok (List.replicate n 0)) (by decide) (by decide) (by decide)
    (fun _ n => ⟨List.replicate n 0, rfl, by simp⟩)
    ⟨2, by decide, by decide, by decide⟩

end CogVideoXFun
